import Mathlib

set_option maxRecDepth 8192

/-!
Verification of the Firefly repository content files.

The repository holds two source artifacts:
* `src/config/profileConfig.ts` — a static configuration object of type
  `ProfileConfig` describing the site owner's avatar, name, bio, and links;
* `src/content/posts/golang/golang_errgroup.md` — a markdown blog post with a
  YAML front-matter block followed by the article body.

Both are embedded below exactly as written: the configuration as a Lean record
value mirroring the TypeScript object literal field by field, and the markdown
file as the list of its lines.
-/

namespace Firefly

/-- Mirrors the TypeScript `Link` shape used by `ProfileConfig.links`:
`{ name: string, icon: string, url: string, showName: boolean }`. -/
structure Link where
  name : String
  icon : String
  url : String
  showName : Bool
deriving DecidableEq, Repr

/-- Mirrors the TypeScript `ProfileConfig` shape:
`{ avatar: string, name: string, bio: string, links: Link[] }`. -/
structure ProfileConfig where
  avatar : String
  name : String
  bio : String
  links : List Link
deriving DecidableEq, Repr

/-- The exported `profileConfig` object of `src/config/profileConfig.ts`,
field for field and in the order the source writes it. -/
def profileConfig : ProfileConfig :=
  { avatar := "https://thirdqq.qlogo.cn/g?b=sdk&k=lqjibcZEgkXNfrobQniac43g&kti=aDkh2RHpkkE&s=40&t=1701864366&s=640"
    name := "Shuai"
    bio := "失败总是贯穿人生始终."
    links :=
      [ { name := "Bilibli"
          icon := "fa6-brands:bilibili"
          url := "https://space.bilibili.com/118791472"
          showName := false }
      , { name := "GitHub"
          icon := "fa6-brands:github"
          url := "https://github.com/shuaiguoer"
          showName := false }
      , { name := "Email"
          icon := "fa6-solid:envelope"
          url := "ls12345666@qq.com"
          showName := false }
      , { name := "RSS"
          icon := "fa6-solid:rss"
          url := "/rss/"
          showName := false } ] }

/-- The backtick character, code point 96. -/
def tick : Char := Char.ofNat 96

/-- `leadsWith p s` holds when the character list `p` is an initial segment
of the character list `s`. -/
def leadsWith : List Char → List Char → Bool
  | [], _ => true
  | _ :: _, [] => false
  | p :: ps, c :: cs => p == c && leadsWith ps cs

/-- Modelled from the spec: characters admitted in a URL by RFC 3986
(unreserved characters, sub-delimiters, general delimiters and the percent
sign; the data under verification uses no apostrophe, which is omitted). -/
def uriSpecials : List Char :=
  ['-', '.', '_', '~', ':', '/', '?', '#', '[', ']', '@',
   '!', '$', '&', '(', ')', '*', '+', ',', ';', '=', '%']

def isUriChar (c : Char) : Bool :=
  c.isAlphanum || uriSpecials.contains c

/-- Modelled from the spec: a syntactically valid absolute http(s) URL, a
scheme `http://` or `https://` followed by a nonempty remainder of URL
characters. -/
def isAbsHttpUrl (s : List Char) : Bool :=
  ((leadsWith ("https://".data) s && (s.drop 8) ≠ []) ||
   (leadsWith ("http://".data) s && (s.drop 7) ≠ [])) &&
  s.all isUriChar

/-- Modelled from the spec: a root-relative URL reference, a path that starts
with `/` and holds only URL characters. -/
def isRootRelativeUrl (s : List Char) : Bool :=
  leadsWith ['/'] s && s.all isUriChar

/-- Characters admitted in the local part of a mail address. -/
def emailLocalChar (c : Char) : Bool :=
  c.isAlphanum || ['.', '_', '%', '+', '-'].contains c

/-- Characters admitted in the domain of a mail address. -/
def emailDomainChar (c : Char) : Bool :=
  c.isAlphanum || ['.', '-'].contains c

/-- Modelled from the spec: a syntactically valid mail address, a nonempty
local part, a single `@`, and a domain that holds a dot and neither starts
nor ends with one. -/
def isEmailAddr (s : List Char) : Bool :=
  let locPart := s.takeWhile (· ≠ '@')
  match s.dropWhile (· ≠ '@') with
  | '@' :: domain =>
      locPart ≠ [] && domain ≠ [] &&
      !domain.contains '@' &&
      locPart.all emailLocalChar && domain.all emailDomainChar &&
      domain.contains '.' &&
      !leadsWith ['.'] domain && domain.getLast? ≠ some '.'
  | _ => false

/-- Modelled from the spec: `links[].url` must be a syntactically valid URL
(absolute http(s) or root-relative) or a mail address. -/
def validLinkUrl (s : String) : Bool :=
  isAbsHttpUrl s.data || isRootRelativeUrl s.data || isEmailAddr s.data

/-- The icon sets named as pre-installed in the comment of
`src/config/profileConfig.ts` line 14: fa6-brands, fa6-regular, fa6-solid,
material-symbols, simple-icons. -/
def preinstalledIconSets : List (List Char) :=
  ["fa6-brands", "fa6-regular", "fa6-solid",
   "material-symbols", "simple-icons"].map String.data

/-- The `<set>` part of an icon identifier `<set>:<code>`. -/
def iconSetOf (s : String) : List Char :=
  s.data.takeWhile (· ≠ ':')

/-- The `<code>` part of an icon identifier `<set>:<code>`. -/
def iconCodeOf (s : String) : List Char :=
  (s.data.dropWhile (· ≠ ':')).drop 1

/-- An icon identifier of the form `<set>:<code>` with `<set>` one of the
pre-installed icon sets and `<code>` nonempty. -/
def validIcon (s : String) : Bool :=
  s.data.contains ':' &&
  preinstalledIconSets.contains (iconSetOf s) &&
  iconCodeOf s ≠ []

/-- The read operations the repository makes available on the configuration:
the four field projections. The repository defines no other operation on
`profileConfig`, and in particular no mutating one. -/
inductive ConfigRead where
  | avatar
  | name
  | bio
  | links
deriving DecidableEq, Repr

/-- Running a read against a configuration state returns the unchanged state
together with the value read. -/
def runRead : ConfigRead → ProfileConfig → ProfileConfig × (String ⊕ List Link)
  | .avatar, c => (c, Sum.inl c.avatar)
  | .name, c => (c, Sum.inl c.name)
  | .bio, c => (c, Sum.inl c.bio)
  | .links, c => (c, Sum.inr c.links)

end Firefly

namespace Firefly

/-- The markdown file `src/content/posts/golang/golang_errgroup.md`, embedded
verbatim as its 557 lines (braces, quotes and backslashes written as string
escapes). Line 1 opens the YAML front-matter block and line 15 closes it;
the article body follows. -/
def document : List String := [
  "---",
  "title: Golang 并发控制：从 WaitGroup 到 errgroup 的深度实践与避坑指南",
  "description: 深度解析 errgroup 工作机制，对比 WaitGroup 揭示其在错误捕获、生命周期控制及并发限流方面的优势，附实战 Demo。",
  "published: 2026-02-06",
  "updated: 2026-02-06",
  "draft: false",
  "category: 技术笔记",
  "tags: [Golang, 并发编程, errgroup, WaitGroup, context, sync, 并发控制, 性能优化, 实战指南]",
  "pinned: false",
  "author: Shuai",
  "licenseName: \"CC BY 4.0\"",
  "sourceLink: \"\"",
  "image: ./images/golang_errgroup.png",
  "slug: golang-errgroup",
  "---",
  "",
  "# Golang 并发控制：从 WaitGroup 到 errgroup 的深度实践与避坑指南",
  "",
  "在 Golang 的业务开发中，如果你还在用串行方式请求 A、B、C、D 四个不相关的接口，那你的程序性能可能和树懒没什么区别。今天我们聊聊如何从原始的 `WaitGroup` 进化到现代化的 `errgroup`，让你的并发代码从\"包工头\"升级为\"精英主管\"。",
  "",
  "---",
  "",
  "## 1. 核心执行逻辑：一人报错，全家收工",
  "",
  "很多同学搞不清楚 `errgroup` 的 `cancel` 到底是什么时候触发的。看下面这张图就秒懂了：",
  "",
  "```text",
  "    +-------------------------------------------------------+",
  "    | Main Goroutine (g, ctx := errgroup.WithContext)       |",
  "    +-------------------------------------------------------+",
  "               |                |                |",
  "        g.Go(Func A)     g.Go(Func B)     g.Go(Func C)",
  "               |                |                |",
  "               |          [ B 报错返回 ]           |",
  "               |                |                |",
  "               |         自动调用 cancel()         |",
  "               |<---------------|--------------->|",
  "        [ A 感知 ctx.Done ]              [ C 感知 ctx.Done ]",
  "        [ 提前退出 ]                      [ 提前退出 ]",
  "               |                |                |",
  "    +-------------------------------------------------------+",
  "    | g.Wait() 立即接收到第一个非空 error 并返回              |",
  "    +-------------------------------------------------------+",
  "```",
  "",
  "**执行流程说明：**",
  "",
  "1. 主 goroutine 通过 `errgroup.WithContext` 创建 errgroup 实例和 context",
  "2. 通过 `g.Go()` 启动多个子 goroutine",
  "3. 任意一个 goroutine 返回非空 error 时，自动触发 `cancel()`",
  "4. 其他 goroutine 通过 `ctx.Done()` 感知取消信号并优雅退出",
  "5. `g.Wait()` 返回第一个非空 error",
  "",
  "**关键点：** `cancel()` 是自动调用的，你不需要手动触发。这就是 errgroup 的魔法所在——它像个贴心的管家，一旦发现有人出事，立马通知所有人撤退。",
  "",
  "---",
  "",
  "## 2. 缘起：为什么不推荐原生 WaitGroup？",
  "",
  "想象一下，你负责一个\"大杂烩\"接口，需要同时查询：用户信息、订单记录、优惠券。",
  "",
  "### 方案对比",
  "",
  "| 方案 | 执行方式 | 耗时 | 问题 |",
  "|------|---------|------|------|",
  "| **方案 A** | 串行执行 | 所有接口总和 | 性能极差，用户体验堪忧 |",
  "| **方案 B** | 原生 WaitGroup | 最慢接口耗时 | 错误难捕捉、生命周期失控 |",
  "",
  "### WaitGroup 的痛点",
  "",
  "使用原生 `WaitGroup` 时，你会遇到以下问题：",
  "",
  "- **错误难捕捉**：其中一个崩了，你得开 channel 费劲地接住 error，就像在暴风雨中接住一片雪花",
  "- **生命周期失控**：如果 A 出错了，B 和 C 还在傻跑，浪费服务器资源，就像三个员工在办公室里加班，其实老板早就下班了",
  "",
  "**代码示例对比：**",
  "",
  "```go",
  "// WaitGroup 的痛苦写法",
  "var wg sync.WaitGroup",
  "errChan := make(chan error, 3)",
  "",
  "wg.Add(3)",
  "go func() \x7b",
  "    defer wg.Done()",
  "    if err := callA(); err != nil \x7b",
  "        errChan <- err",
  "    \x7d",
  "\x7d()",
  "// ... 重复 3 次",
  "",
  "wg.Wait()",
  "close(errChan)",
  "for err := range errChan \x7b",
  "    // 处理错误",
  "\x7d",
  "",
  "// errgroup 的优雅写法",
  "g, ctx := errgroup.WithContext(context.Background())",
  "g.Go(func() error \x7b",
  "    return callA()",
  "\x7d)",
  "// ... 重复 3 次",
  "",
  "if err := g.Wait(); err != nil \x7b",
  "    // 处理错误",
  "\x7d",
  "```",
  "",
  "看到区别了吗？errgroup 让你的代码从\"写满注释的意大利面条\"变成了\"优雅的法式大餐\"。",
  "",
  "---",
  "",
  "## 3. errgroup vs WaitGroup：从\"包工头\"到\"精英主管\"",
  "",
  "如果说 `sync.WaitGroup` 是个只会数数的包工头，那 `errgroup` 就是个精英主管：",
  "",
  "### 核心优势",
  "",
  "- **共同进退**：只要一人报错，大家一起收工，避免资源浪费",
  "- **错误收集**：自动帮你保存第一个返回的非空错误，不用自己写一堆 channel 逻辑",
  "- **资源受控**：自带 `SetLimit` 限流，防止把下游打挂，就像给服务器装了个\"防超载保护器\"",
  "",
  "### 重构清单",
  "",
  "从 `WaitGroup` 迁移到 `errgroup` 的关键步骤：",
  "",
  "```go",
  "// 1. 初始化（替代 sync.WaitGroup\x7b\x7d）",
  "g, ctx := errgroup.WithContext(ctx)",
  "",
  "// 2. 启动任务（替代 wg.Add(1) + go func()）",
  "g.Go(func() error \x7b",
  "    // 你的业务逻辑",
  "    return nil",
  "\x7d)",
  "",
  "// 3. 等待完成（替代 wg.Wait()）",
  "if err := g.Wait(); err != nil \x7b",
  "    // 处理错误",
  "\x7d",
  "```",
  "",
  "**迁移检查清单：**",
  "",
  "- [ ] 替换 `sync.WaitGroup` 为 `errgroup.WithContext`",
  "- [ ] 将 `wg.Add(1)` 和 `wg.Done()` 替换为 `g.Go()`",
  "- [ ] 将错误 channel 替换为 `g.Wait()` 返回值",
  "- [ ] 确保所有子 goroutine 使用同一个 context",
  "- [ ] 添加 `ctx.Done()` 检查以支持优雅退出",
  "",
  "---",
  "",
  "## 4. 硬核进阶：g.SetLimit 与 g.TryGo",
  "",
  "### 4.1 g.SetLimit(n)：控制并发上限",
  "",
  "别把服务器当驴使！合理的 `SetLimit` 应该参考公式：",
  "",
  "```",
  "N = CPU核心数 × (1 + 等待时间 / 计算时间)",
  "```",
  "",
  "这个公式来自《计算机程序设计艺术》，是并发控制的黄金法则。",
  "",
  "**使用示例：**",
  "",
  "```go",
  "g.SetLimit(10) // 最多同时运行 10 个 goroutine",
  "```",
  "",
  "**实战场景：** 假设你要处理 1000 个用户的批量操作，每个操作需要调用外部 API。如果不设置 `SetLimit`，你的程序会瞬间创建 1000 个 goroutine，可能导致：",
  "",
  "- 内存爆炸",
  "- 网络连接耗尽",
  "- 下游服务被打挂（对方可能会拉黑你）",
  "",
  "```go",
  "// 错误示范：无限制并发",
  "for _, user := range users \x7b",
  "    g.Go(func() error \x7b",
  "        return callExternalAPI(user)",
  "    \x7d)",
  "\x7d",
  "",
  "// 正确示范：设置合理限流",
  "g.SetLimit(50) // 根据下游服务承受能力调整",
  "for _, user := range users \x7b",
  "    g.Go(func() error \x7b",
  "        return callExternalAPI(user)",
  "    \x7d)",
  "\x7d",
  "```",
  "",
  "### 4.2 g.TryGo：职场试探学",
  "",
  "`TryGo` 就像是问女神：\"明天有空吗？\" 如果女神（Limit 满了）说没空，你立马执行 fallback（降级方案），绝不舔着脸在那等。",
  "",
  "**使用示例：**",
  "",
  "```go",
  "g.SetLimit(10)",
  "",
  "// 尝试开启协程，如果并发已满则立即返回 false",
  "if !g.TryGo(func() error \x7b",
  "    return callHeavyRPC(ctx)",
  "\x7d) \x7b",
  "    // 没位子了，走备选方案（如走缓存或返回默认值）",
  "    return fallback()",
  "\x7d",
  "```",
  "",
  "**TryGo 的优势：**",
  "",
  "- **非阻塞操作**：不会等待，立即返回结果",
  "- **可以立即执行降级策略**：避免用户等待超时",
  "- **防止资源耗尽导致的雪崩**：在系统高负载时自动降级",
  "",
  "**实战场景：** 在秒杀系统中，当并发请求超过系统承载能力时，使用 `TryGo` 可以立即返回\"系统繁忙\"，而不是让用户一直等待，最终超时。",
  "",
  "```go",
  "func handleSeckillRequest(ctx context.Context, userID string) error \x7b",
  "    g.SetLimit(1000) // 系统最大并发处理能力",
  "",
  "    if !g.TryGo(func() error \x7b",
  "        return processSeckill(ctx, userID)",
  "    \x7d) \x7b",
  "        return errors.New(\"系统繁忙，请稍后重试\")",
  "    \x7d",
  "",
  "    return nil",
  "\x7d",
  "```",
  "",
  "---",
  "",
  "## 5. 完整 Demo：竞争执行 (Race Execution)",
  "",
  "这段代码演示了利用 `errgroup` 实现\"任一成功/失败即取消其他任务\"的硬核操作。",
  "",
  "### 5.1 代码实现",
  "",
  "```go",
  "package main",
  "",
  "import (",
  "    \"context\"",
  "    \"errors\"",
  "    \"fmt\"",
  "    \"time\"",
  "    \"golang.org/x/sync/errgroup\"",
  ")",
  "",
  "func SearchData(ctx context.Context, name string, delay time.Duration, willFail bool) (string, error) \x7b",
  "    fmt.Printf(\"🚀 任务 [%s] 开始执行...\\n\", name)",
  "    select \x7b",
  "    case <-time.After(delay):",
  "        if willFail \x7b",
  "            return \"\", errors.New(name + \" 发生故障\")",
  "        \x7d",
  "        return name + \" 获取成功\", nil",
  "    case <-ctx.Done():",
  "        fmt.Printf(\"⏹️ 任务 [%s] 收到取消信号，优雅退出。\\n\", name)",
  "        return \"\", ctx.Err()",
  "    \x7d",
  "\x7d",
  "",
  "func main() \x7b",
  "    g, ctx := errgroup.WithContext(context.Background())",
  "    resultChan := make(chan string, 1) // 缓冲为 1，防止发送者阻塞",
  "",
  "    tasks := []struct \x7b",
  "        n string",
  "        d time.Duration",
  "        f bool",
  "    \x7d\x7b",
  "        \x7b\"Service-A\", 3 * time.Second, false\x7d,",
  "        \x7b\"Service-B\", 1 * time.Second, true\x7d, // 它最快且报错，会触发全局 cancel",
  "        \x7b\"Service-C\", 5 * time.Second, false\x7d,",
  "    \x7d",
  "",
  "    for _, t := range tasks \x7b",
  "        tt := t // 闭包陷阱：必须进行变量拷贝",
  "        g.Go(func() error \x7b",
  "            res, err := SearchData(ctx, tt.n, tt.d, tt.f)",
  "            if err == nil \x7b",
  "                select \x7b",
  "                case resultChan <- res:",
  "                default:",
  "                \x7d",
  "            \x7d",
  "            return err",
  "        \x7d)",
  "    \x7d",
  "",
  "    go func() \x7b",
  "        if err := g.Wait(); err != nil \x7b",
  "            fmt.Printf(\"\\n📢 Wait() 最终捕获错误: %v\\n\", err)",
  "        \x7d",
  "        close(resultChan)",
  "    \x7d()",
  "",
  "    if finalRes, ok := <-resultChan; ok \x7b",
  "        fmt.Printf(\"\\n🏆 拿到结果: %s\\n\", finalRes)",
  "    \x7d else \x7b",
  "        fmt.Println(\"\\n💀 任务全部失败或被取消。\")",
  "    \x7d",
  "\x7d",
  "```",
  "",
  "### 5.2 代码解析",
  "",
  "**关键点说明：**",
  "",
  "1. **闭包陷阱处理**：`tt := t` 必须进行变量拷贝，避免所有 goroutine 使用同一个变量。这是 Go 新手最容易踩的坑之一。",
  "2. **Channel 缓冲**：`resultChan` 缓冲为 1，防止发送者阻塞。如果缓冲为 0，当没有接收者时，发送者会永远阻塞。",
  "3. **优雅退出**：通过 `ctx.Done()` 监听取消信号，确保 goroutine 能够及时退出，避免资源泄漏。",
  "4. **错误传播**：`g.Wait()` 返回第一个非空 error，这是 errgroup 的核心特性。",
  "",
  "**执行流程：**",
  "",
  "1. Service-B 最快执行（1秒）且报错",
  "2. 触发全局 `cancel()`，取消其他任务",
  "3. Service-A 和 Service-C 收到取消信号后优雅退出",
  "4. `g.Wait()` 返回 Service-B 的错误",
  "",
  "**输出示例：**",
  "",
  "```text",
  "🚀 任务 [Service-A] 开始执行...",
  "🚀 任务 [Service-B] 开始执行...",
  "🚀 任务 [Service-C] 开始执行...",
  "⏹️ 任务 [Service-A] 收到取消信号，优雅退出。",
  "⏹️ 任务 [Service-C] 收到取消信号，优雅退出。",
  "",
  "📢 Wait() 最终捕获错误: Service-B 发生故障",
  "",
  "💀 任务全部失败或被取消。",
  "```",
  "",
  "---",
  "",
  "## 6. 最佳实践总结",
  "",
  "### 6.1 使用建议",
  "",
  "| 场景 | 推荐方案 | 说明 |",
  "|------|---------|------|",
  "| 简单并发等待 | `sync.WaitGroup` | 不需要错误处理时，比如批量日志处理 |",
  "| 需要错误传播 | `errgroup` | 自动收集第一个错误，适合 API 聚合场景 |",
  "| 需要并发限流 | `errgroup.SetLimit` | 防止资源耗尽，适合批量处理外部请求 |",
  "| 需要降级策略 | `errgroup.TryGo` | 非阻塞，可立即降级，适合高并发场景 |",
  "",
  "### 6.2 常见陷阱",
  "",
  "#### 陷阱 1：忘记变量拷贝",
  "",
  "```go",
  "// 错误示范",
  "for _, t := range tasks \x7b",
  "    g.Go(func() error \x7b",
  "        return process(t) // 所有 goroutine 都使用最后一个 t",
  "    \x7d)",
  "\x7d",
  "",
  "// 正确示范",
  "for _, t := range tasks \x7b",
  "    tt := t // 必须拷贝",
  "    g.Go(func() error \x7b",
  "        return process(tt)",
  "    \x7d)",
  "\x7d",
  "```",
  "",
  "#### 陷阱 2：Context 传递不一致",
  "",
  "```go",
  "// 错误示范",
  "g, ctx := errgroup.WithContext(context.Background())",
  "g.Go(func() error \x7b",
  "    return process(context.Background()) // 使用新的 context，无法感知取消",
  "\x7d)",
  "",
  "// 正确示范",
  "g, ctx := errgroup.WithContext(context.Background())",
  "g.Go(func() error \x7b",
  "    return process(ctx) // 使用同一个 context",
  "\x7d)",
  "```",
  "",
  "#### 陷阱 3：Channel 阻塞",
  "",
  "```go",
  "// 错误示范",
  "resultChan := make(chan string) // 无缓冲",
  "g.Go(func() error \x7b",
  "    resultChan <- \"result\" // 如果没有接收者，会永远阻塞",
  "    return nil",
  "\x7d)",
  "",
  "// 正确示范",
  "resultChan := make(chan string, 1) // 带缓冲",
  "g.Go(func() error \x7b",
  "    resultChan <- \"result\"",
  "    return nil",
  "\x7d)",
  "```",
  "",
  "#### 陷阱 4：资源泄漏",
  "",
  "```go",
  "// 错误示范：没有检查 ctx.Done()",
  "g.Go(func() error \x7b",
  "    for \x7b",
  "        // 无限循环，即使 context 被取消也不会退出",
  "        doSomething()",
  "    \x7d",
  "\x7d)",
  "",
  "// 正确示范：检查 ctx.Done()",
  "g.Go(func() error \x7b",
  "    for \x7b",
  "        select \x7b",
  "        case <-ctx.Done():",
  "            return ctx.Err()",
  "        default:",
  "            doSomething()",
  "        \x7d",
  "    \x7d",
  "\x7d)",
  "```",
  "",
  "### 6.3 性能优化建议",
  "",
  "1. **合理设置 SetLimit**：根据系统资源和下游服务承受能力设置，避免过度并发",
  "2. **使用 TryGo 实现非阻塞降级**：在高并发场景下，及时降级比一直等待更重要",
  "3. **监控 goroutine 数量**：使用 `runtime.NumGoroutine()` 监控，防止泄漏",
  "4. **合理使用 context 超时控制**：设置合理的超时时间，避免 goroutine 长时间阻塞",
  "",
  "**性能对比：**",
  "",
  "```go",
  "// 场景：处理 1000 个外部 API 请求",
  "",
  "// 方案 A：无限制并发",
  "// 耗时：~1 秒（最快）",
  "// 问题：可能导致下游服务崩溃，内存占用高",
  "",
  "// 方案 B：SetLimit(100)",
  "// 耗时：~10 秒",
  "// 优势：稳定，不会打挂下游服务",
  "",
  "// 方案 C：SetLimit(100) + TryGo + 降级",
  "// 耗时：~10 秒",
  "// 优势：稳定 + 用户体验好（立即返回降级结果）",
  "```",
  "",
  "---",
  "",
  "## 7. 实战应用场景",
  "",
  "### 场景 1：微服务聚合",
  "",
  "```go",
  "func GetUserInfo(ctx context.Context, userID string) (*UserInfo, error) \x7b",
  "    g, ctx := errgroup.WithContext(ctx)",
  "    var info UserInfo",
  "",
  "    g.Go(func() error \x7b",
  "        var err error",
  "        info.Profile, err = getProfile(ctx, userID)",
  "        return err",
  "    \x7d)",
  "",
  "    g.Go(func() error \x7b",
  "        var err error",
  "        info.Orders, err = getOrders(ctx, userID)",
  "        return err",
  "    \x7d)",
  "",
  "    g.Go(func() error \x7b",
  "        var err error",
  "        info.Coupons, err = getCoupons(ctx, userID)",
  "        return err",
  "    \x7d)",
  "",
  "    if err := g.Wait(); err != nil \x7b",
  "        return nil, err",
  "    \x7d",
  "",
  "    return &info, nil",
  "\x7d",
  "```",
  "",
  "### 场景 2：批量数据处理",
  "",
  "```go",
  "func ProcessBatch(ctx context.Context, items []Item) error \x7b",
  "    g, ctx := errgroup.WithContext(ctx)",
  "    g.SetLimit(50) // 控制并发数",
  "",
  "    for _, item := range items \x7b",
  "        item := item // 闭包陷阱",
  "        g.Go(func() error \x7b",
  "            return processItem(ctx, item)",
  "        \x7d)",
  "    \x7d",
  "",
  "    return g.Wait()",
  "\x7d",
  "```",
  "",
  "### 场景 3：健康检查",
  "",
  "```go",
  "func HealthCheck(ctx context.Context) error \x7b",
  "    g, ctx := errgroup.WithContext(ctx)",
  "    g.SetLimit(5)",
  "",
  "    services := []string\x7b\"db\", \"redis\", \"mq\", \"cache\", \"api\"\x7d",
  "",
  "    for _, svc := range services \x7b",
  "        svc := svc",
  "        g.Go(func() error \x7b",
  "            return checkService(ctx, svc)",
  "        \x7d)",
  "    \x7d",
  "",
  "    return g.Wait()",
  "\x7d",
  "```",
  "",
  "---",
  "",
  "## 8. 参考资源",
  "",
  "- [errgroup 官方文档](https://pkg.go.dev/golang.org/x/sync/errgroup)",
  "- [Go 并发编程最佳实践](https://go.dev/doc/effective_go#concurrency)",
  "- [Context 包详解](https://go.dev/blog/context)",
  "- [Go 并发模式](https://github.com/golang/go/wiki/LockOSThread)",
  "",
  "---",
  "",
  "## 总结",
  "",
  "`errgroup` 是 Go 并发编程的利器，它不仅解决了 `WaitGroup` 的痛点，还提供了更强大的错误处理和资源控制能力。从 WaitGroup 到 errgroup，不仅是工具的升级，更是思维方式的转变——从\"只会数数的包工头\"到\"懂得管理的精英主管\"。",
  "",
  "掌握 `errgroup`，让你的并发代码更优雅、更健壮、更高效。记住，好的并发代码不仅要快，还要稳。就像人生一样，不仅要追求速度，更要懂得何时停下。",
  "",
  "**最后送给大家一句话：** \"并发编程就像谈恋爱，既要懂得放手（context cancel），又要懂得坚持（error handling），最重要的是要懂得控制节奏（SetLimit）。\"",
  "",
  "---",
  "",
  "**相关阅读：**",
  "- [Golang Context 详解：从入门到精通](#)",
  "- [Go 性能优化实战指南](#)",
  "- [微服务架构中的并发模式](#)"
]

/-- The lines of the YAML front-matter block: what stands between the opening
`---` on line 1 and the closing `---` on line 15. -/
def frontMatterLines : List String :=
  (document.drop 1).takeWhile (fun l => l.data ≠ ['-', '-', '-'])

/-- The article body: every line after the closing `---` of the front-matter
block. -/
def bodyLines : List String :=
  (((document.drop 1).dropWhile (fun l => l.data ≠ ['-', '-', '-'])).drop 1)

/-- The key of a front-matter line: the characters before the first `:`. -/
def keyOf (l : String) : List Char :=
  l.data.takeWhile (· ≠ ':')

/-- The value of a front-matter line: the characters after the first `:`,
with the leading blanks dropped. -/
def valOf (l : String) : List Char :=
  ((l.data.dropWhile (· ≠ ':')).drop 1).dropWhile (· == ' ')

/-- The keys present in the front-matter block. -/
def fmKeys : List (List Char) :=
  frontMatterLines.map keyOf

/-- Whether the front-matter block holds the key `k`. -/
def hasFmKey (k : String) : Bool :=
  fmKeys.contains k.data

/-- The value of key `k` in the front-matter block, when present. -/
def fmValue (k : String) : Option (List Char) :=
  (frontMatterLines.find? (fun l => keyOf l == k.data)).map valOf

/-- `fmFieldOk k p`: the front-matter holds key `k` and its value satisfies
the typing predicate `p`. -/
def fmFieldOk (k : String) (p : List Char → Bool) : Bool :=
  match fmValue k with
  | some v => p v
  | none => false

/-- A date written `YYYY-MM-DD` with all six positions decimal digits. -/
def isDateChars : List Char → Bool
  | [y1, y2, y3, y4, h1, m1, m2, h2, d1, d2] =>
      y1.isDigit && y2.isDigit && y3.isDigit && y4.isDigit &&
      h1 == '-' && h2 == '-' &&
      m1.isDigit && m2.isDigit && d1.isDigit && d2.isDigit
  | _ => false

/-- A YAML boolean literal, `true` or `false`. -/
def isBoolChars (s : List Char) : Bool :=
  s == "true".data || s == "false".data

/-- A YAML flow sequence `[ ... ]` as the tags field uses. -/
def isTagListChars (s : List Char) : Bool :=
  leadsWith ['['] s && s.getLast? == some ']'

/-- A nonempty scalar value. -/
def isNonemptyChars (s : List Char) : Bool :=
  s ≠ []

/-- A string scalar: any character data, a double-quoted form included. -/
def isStringChars (_ : List Char) : Bool :=
  true

/-- A line of the article body that is a code-fence delimiter: its first
three characters are backticks (every fence of this document sits at column
zero and uses exactly three backticks). -/
def startsFence (l : String) : Bool :=
  match l.data with
  | a :: b :: c :: _ => a == tick && b == tick && c == tick
  | _ => false

/-- Scanning the body line by line and flipping at each fence delimiter:
`true` exactly when the scan stands inside an open code fence. The scan
result over the whole body tells whether a fence is left open at end of
file. -/
def inFenceAtEnd (lines : List String) : Bool :=
  lines.foldl (fun st l => if startsFence l then !st else st) false

/-- The number of fence-delimiter lines of the body. -/
def fenceCount : Nat :=
  (bodyLines.filter startsFence).length

end Firefly

namespace Firefly

/-- Claim C1: every element of `profileConfig.links` has a `url` field that is
a syntactically valid URL (absolute http(s) or root-relative) or a mail
address; this covers the Bilibili and GitHub https URLs, the Email entry and
the root-relative RSS entry. -/
theorem links_urls_valid_or_email :
    (profileConfig.links.map Link.url).all validLinkUrl = true := by
  decide

/-- Claim C2, counterexample: the front-matter block of
`golang_errgroup.md` holds no key named `license`; the license field of the
file is spelled `licenseName`, so the claim as stated fails. -/
theorem frontmatter_license_key_missing :
    hasFmKey "license" = false := by
  decide

/-- Claim C2, amended: the front-matter block of `golang_errgroup.md` holds,
present and well-typed, the fields title, description, published date,
updated date, draft flag, category, tags, pinned flag, author, licenseName
(the license field, spelled `licenseName` in the file), sourceLink, image and
slug. -/
theorem frontmatter_fields_present_welltyped :
    fmFieldOk "title" isNonemptyChars = true ∧
    fmFieldOk "description" isNonemptyChars = true ∧
    fmFieldOk "published" isDateChars = true ∧
    fmFieldOk "updated" isDateChars = true ∧
    fmFieldOk "draft" isBoolChars = true ∧
    fmFieldOk "category" isNonemptyChars = true ∧
    fmFieldOk "tags" isTagListChars = true ∧
    fmFieldOk "pinned" isBoolChars = true ∧
    fmFieldOk "author" isNonemptyChars = true ∧
    fmFieldOk "licenseName" isNonemptyChars = true ∧
    fmFieldOk "sourceLink" isStringChars = true ∧
    fmFieldOk "image" isNonemptyChars = true ∧
    fmFieldOk "slug" isNonemptyChars = true := by
  refine ⟨?_, ?_, ?_, ?_, ?_, ?_, ?_, ?_, ?_, ?_, ?_, ?_, ?_⟩ <;> decide

/-- Claim C3: the exported `profileConfig` value has exactly the
`ProfileConfig` shape (it is a value of the `ProfileConfig` record type
mirroring the TypeScript interface), its avatar is a syntactically valid
absolute URL string, and every element of `links` carries a nonempty name, a
nonempty icon identifier, a nonempty url string and a boolean `showName`. -/
theorem profileConfig_shape :
    isAbsHttpUrl profileConfig.avatar.data = true ∧
    profileConfig.links.all
      (fun l => !(l.name == "") && !(l.icon == "") && !(l.url == "")) = true := by
  exact ⟨by decide, by decide⟩

/-- Claim C4: every element of `profileConfig.links` has an icon of the form
`<set>:<code>` whose `<set>` is one of the pre-installed icon sets named in
the file (fa6-brands, fa6-regular, fa6-solid, material-symbols,
simple-icons) and whose `<code>` is nonempty. -/
theorem links_icons_preinstalled :
    profileConfig.links.all (fun l => validIcon l.icon) = true := by
  decide

/-- Claim C5: `profileConfig.links` is exactly the four-element sequence with
names Bilibli, GitHub, Email, RSS in that order; reading the configuration
is the pure projection of a constant, so no reading reorders, drops or adds
elements. -/
theorem links_display_order :
    profileConfig.links.map Link.name = ["Bilibli", "GitHub", "Email", "RSS"] ∧
    profileConfig.links.length = 4 := by
  exact ⟨by decide, by decide⟩

/-- Claim C6: in the body of `golang_errgroup.md` the code-fence delimiter
lines pair up: scanning the body leaves no fence open at end of file, and
the number of fence delimiter lines is even. -/
theorem fences_balanced :
    inFenceAtEnd bodyLines = false ∧ fenceCount % 2 = 0 := by
  exact ⟨by decide, by decide⟩

/-- Claim C7: the configuration is never mutated: every operation the
repository defines on it is one of the four field reads, and running any
read against any configuration state returns that state unchanged; in
particular every read of `profileConfig` leaves it intact. -/
theorem config_reads_pure :
    ∀ (r : ConfigRead) (c : ProfileConfig),
      (runRead r c).1 = c ∧ (runRead r profileConfig).1 = profileConfig := by
  intro r c
  cases r <;> exact ⟨rfl, rfl⟩

/-- Claim C8: every element of `profileConfig.links` has `showName = false`,
so each of the four links displays the icon only. -/
theorem links_show_icon_only :
    profileConfig.links.all (fun l => l.showName == false) = true := by
  decide

/-- Claim C9: the `name` fields of the elements of `profileConfig.links` are
pairwise distinct, and so are the `icon` fields and the `url` fields. -/
theorem links_fields_nodup :
    (profileConfig.links.map Link.name).Nodup ∧
    (profileConfig.links.map Link.icon).Nodup ∧
    (profileConfig.links.map Link.url).Nodup := by
  refine ⟨?_, ?_, ?_⟩ <;> decide

/-- Claim C10: in the front-matter of `golang_errgroup.md`, draft is false,
pinned is false, and the published date equals the updated date, both being
2026-02-06. -/
theorem frontmatter_published_state :
    fmValue "draft" = some "false".data ∧
    fmValue "pinned" = some "false".data ∧
    fmValue "published" = some "2026-02-06".data ∧
    fmValue "updated" = fmValue "published" := by
  refine ⟨?_, ?_, ?_, ?_⟩ <;> decide

end Firefly
